import Mathlib

/-!
Verification of the authentication/session core of the pet-adoption app
(`src/pet_adoption_app.py`), shallowly embedded in Lean.

Modelling conventions:
* The external Firebase realtime database is embedded as an explicit `DB`
  value threaded through the handlers; `users/<username>` is an association
  list keyed by username, `pets` and `comments/<pet_id>` are append-only
  lists (Firebase `push` generates fresh keys, which no claim depends on).
* Streamlit session state `st.session_state["logged_in_user"]` is an
  `Option Identity` (`none` = anonymous).
* UI messages shown with `st.error` / `st.success` / `st.sidebar.error`
  are returned as strings (the decorative emoji prefixes of the source
  are dropped; they carry no information).
* The Python float `age` field is embedded as a rational; no claim
  depends on floating-point rounding.
* External store calls that can throw are given an explicit
  `StoreOutcome` argument; a handler whose body does not catch the
  exception is embedded with result type `Except String _`, where
  `Except.error` means the exception escaped the handler.
-/

set_option autoImplicit false

namespace PetApp

/-! ## Password hashing (model of the external bcrypt library)

Modelled from the spec: `bcrypt.hashpw` / `bcrypt.checkpw` are an external
third-party library, not code of this repository.  Per the spec they are
"a salted one-way hash": verifying the original plaintext against the
stored hash succeeds, verifying any other string fails, and the stored
hash never equals the plaintext.  We embed an ideal collision-free salted
hash: the digest is a reversible encoding of the password (computational
one-wayness is not expressible in a shallow embedding; only the
verification relation matters to the claims).  The salt is an explicit
`Nat` parameter standing for the randomness of `bcrypt.gensalt()`,
rendered as a run of `'x'` characters so that the terminating `'$'`
delimiter is unambiguous. -/

/-- Drop the leading run of salt characters `'x'`. -/
def dropXs : List Char → List Char
  | [] => []
  | c :: cs => if c = 'x' then dropXs cs else c :: cs

/-- The character data of a bcrypt-style hash: a `"$2b$"` header, the
salt, a `'$'` delimiter, then the digest (ideal model: the password). -/
def hashData (salt : Nat) (p : List Char) : List Char :=
  '$' :: '2' :: 'b' :: '$' :: (List.replicate salt 'x' ++ '$' :: p)

/-- Recover the digest from a hash; `none` if the shape is wrong. -/
def unhash : List Char → Option (List Char)
  | '$' :: '2' :: 'b' :: '$' :: rest =>
    match dropXs rest with
    | '$' :: p => some p
    | _ => none
  | _ => none

/-- Model of `bcrypt.checkpw` on character data. -/
def checkpwData (p h : List Char) : Bool :=
  decide (unhash h = some p)

/-- `hash_password(password)` (line 38): salted one-way hash, decoded to a
string.  The salt drawn by `bcrypt.gensalt()` is an explicit parameter. -/
def hash_password (salt : Nat) (password : String) : String :=
  ⟨hashData salt password.data⟩

/-- `verify_password(password, hashed)` (line 41). -/
def verify_password (password hashed : String) : Bool :=
  checkpwData password.data hashed.data

theorem dropXs_replicate (n : Nat) (p : List Char) :
    dropXs (List.replicate n 'x' ++ '$' :: p) = '$' :: p := by
  induction n with
  | zero => simp [dropXs]
  | succ k ih => simp [List.replicate_succ, dropXs, ih]

theorem unhash_hashData (salt : Nat) (p : List Char) :
    unhash (hashData salt p) = some p := by
  simp [hashData, unhash, dropXs_replicate]

theorem verify_hash_self (salt : Nat) (p : String) :
    verify_password p (hash_password salt p) = true := by
  simp [verify_password, hash_password, checkpwData, unhash_hashData]

theorem string_data_inj {p q : String} (h : p.data = q.data) : p = q :=
  congrArg String.mk h

theorem verify_hash_other (salt : Nat) (p q : String) (h : q ≠ p) :
    verify_password q (hash_password salt p) = false := by
  simp only [verify_password, hash_password, checkpwData, decide_eq_false_iff_not,
    unhash_hashData, Option.some.injEq]
  intro hd
  exact h (string_data_inj hd.symm)

theorem length_hashData (salt : Nat) (p : List Char) :
    (hashData salt p).length = p.length + salt + 5 := by
  simp [hashData]
  omega

theorem hash_ne_plain (salt : Nat) (p : String) :
    hash_password salt p ≠ p := by
  intro h
  have hd : (hash_password salt p).data = p.data := by rw [h]
  have hl : (hashData salt p.data).length = p.data.length := by
    simpa [hash_password] using congrArg List.length hd
  rw [length_hashData] at hl
  omega

/-! ## Data model -/

/-- A record under `users/<username>`: `{"full_name": ..., "password": <hash>}`
(line 115).  The `password` field holds the bcrypt hash, never a plaintext. -/
structure UserRecord where
  full_name : String
  password : String
  deriving DecidableEq

/-- The value stored in `st.session_state["logged_in_user"]` on login
(lines 129-132): `{"username": ..., "full_name": ...}`. -/
structure Identity where
  username : String
  full_name : String
  deriving DecidableEq

/-- A record pushed under `comments/<pet_id>` (line 78). -/
structure Comment where
  commenter : String
  text : String
  deriving DecidableEq

/-- An uploaded image file.  Its byte content is irrelevant to every claim;
`saveOk` records whether the external disk write performed by
`save_image` succeeds (the source catches the write exception inside
`save_image` and returns `None` on failure, lines 44-54). -/
structure UploadedFile where
  saveOk : Bool
  deriving DecidableEq

/-- A record pushed under `pets` by `add_pet` (lines 165-175), fields in
source order. -/
structure Pet where
  name : String
  pet_type : String
  age : ℚ
  description : String
  location : String
  vaccinated : String
  image_paths : List String
  adopted : Bool
  owner : String
  deriving DecidableEq

/-- The external realtime database: `users/<username>` keyed records,
`pets` and `comments/<pet_id>` push collections.  A pet's generated key is
its index in `pets`; a comment is tagged with the `pet_id` it was pushed
under. -/
structure DB where
  users : List (String × UserRecord)
  pets : List Pet
  comments : List (Nat × Comment)
  deriving DecidableEq

/-- Keyed lookup `users_ref.child(username).get()` / `db.reference(f"users/{username}").get()`
(lines 111, 126): `none` when no record exists at the key. -/
def usersLookup : List (String × UserRecord) → String → Option UserRecord
  | [], _ => none
  | (k, r) :: rest, u => if k = u then some r else usersLookup rest u

theorem usersLookup_append_self (l : List (String × UserRecord)) (u : String)
    (r : UserRecord) (h : usersLookup l u = none) :
    usersLookup (l ++ [(u, r)]) u = some r := by
  induction l with
  | nil => simp [usersLookup]
  | cons kv rest ih =>
    obtain ⟨k, r'⟩ := kv
    by_cases hk : k = u
    · simp [usersLookup, hk] at h
    · simp only [List.cons_append, usersLookup, hk, if_false] at h ⊢
      exact ih h

theorem usersLookup_append_of_some (l m : List (String × UserRecord)) (u : String)
    (r : UserRecord) (h : usersLookup l u = some r) :
    usersLookup (l ++ m) u = some r := by
  induction l with
  | nil => simp [usersLookup] at h
  | cons kv rest ih =>
    obtain ⟨k, r'⟩ := kv
    by_cases hk : k = u
    · simp_all [usersLookup]
    · simp only [usersLookup, hk, if_false] at h
      simp only [List.cons_append, usersLookup, hk, if_false]
      exact ih h

/-! ## Session manager: register / login / logout (lines 101-142)

The happy-store versions below assume every external store call returns;
store failures are treated separately by the `StoreOutcome`-parameterised
versions further down. -/

/-- The write performed by the success branch of `register` (lines 114-115):
hash the password and set `users/<username>` to
`{"full_name": ..., "password": <hash>}`. -/
def registerInsert (salt : Nat) (db : DB) (full_name username password : String) : DB :=
  { db with users := db.users ++ [(username, ⟨full_name, hash_password salt password⟩)] }

/-- `register()` submit branch (lines 109-116): reject when
`users_ref.child(username).get()` returns a record, otherwise write the
new record.  Returns the new store and the sidebar message shown. -/
def register (salt : Nat) (db : DB) (full_name username password : String) :
    DB × String :=
  match usersLookup db.users username with
  | some _ => (db, "Username already exists!")
  | none => (registerInsert salt db full_name username password,
      "Registration successful! Please log in.")

/-- `login()` button branch, store call succeeding (lines 126-135): fetch
`users/<username>`; if a record exists and the stored hash verifies,
set the session identity, else show the unified invalid-credentials
error and leave the session as it was.  Returns the new session state
and the sidebar message. -/
def login (db : DB) (session : Option Identity) (username password : String) :
    Option Identity × String :=
  match usersLookup db.users username with
  | some r =>
    if verify_password password r.password then
      (some ⟨username, r.full_name⟩, "Welcome, " ++ r.full_name ++ "!")
    else
      (session, "Invalid credentials!")
  | none => (session, "Invalid credentials!")

/-- `logout()` (lines 139-142): unconditionally clears
`st.session_state["logged_in_user"]` and shows a success message. -/
def logout (_session : Option Identity) : Option Identity × String :=
  (none, "Logged out successfully!")

/-! ## Pets and comments (lines 44-98, 145-180) -/

/-- `save_image(uploaded_file, filename)` (lines 44-54): writes the blob to
`uploads/<filename>` and returns the path; a write failure is caught
inside and surfaced as `None` (plus an inline error message). -/
def save_image (file : UploadedFile) (filename : String) : Option String :=
  if file.saveOk then some ("uploads/" ++ filename) else none

/-- `name.lower().replace(' ', '_')` (line 160). -/
def sanitizeName (name : String) : String :=
  ⟨(name.data.map Char.toLower).map (fun c => if c = ' ' then '_' else c)⟩

/-- The filename built for the `i`-th (zero-based) image (line 160):
`f"{name.lower().replace(' ', '_')}_img{i+1}.jpg"`. -/
def petFilename (name : String) (i : Nat) : String :=
  sanitizeName name ++ "_img" ++ toString (i + 1) ++ ".jpg"

/-- The image-saving loop of `add_pet` (lines 158-163):
`for i, image in enumerate(images[:3])`, appending each path that
`save_image` returns, skipping failures. -/
def petImagePaths (name : String) (images : List UploadedFile) : List String :=
  (images.take 3).enum.filterMap (fun p => save_image p.2 (petFilename name p.1))

/-- The `pet_data` dict written by `add_pet` (lines 165-175); `user` is the
logged-in identity (`add_pet` is only reachable when a user is logged in). -/
def petRecord (user : Identity) (name pet_type : String) (age : ℚ)
    (description location vaccinated : String) (images : List UploadedFile) : Pet :=
  { name := name, pet_type := pet_type, age := age, description := description,
    location := location, vaccinated := vaccinated,
    image_paths := petImagePaths name images, adopted := false,
    owner := user.username }

/-- `add_pet()` submit branch with the `pets` push succeeding
(lines 157-178): saves the images, then pushes `pet_data`. -/
def add_pet (db : DB) (user : Identity) (name pet_type : String) (age : ℚ)
    (description location vaccinated : String) (images : List UploadedFile) : DB :=
  { db with pets := db.pets ++
      [petRecord user name pet_type age description location vaccinated images] }

/-- `add_comment(pet_id, comment_text)` (lines 73-80): pushes
`{"commenter": <logged-in username>, "text": ...}` when a user is logged
in, else shows an error and writes nothing.  The second component is the
error message, `none` when no message is shown. -/
def add_comment (db : DB) (session : Option Identity) (pet_id : Nat)
    (comment_text : String) : DB × Option String :=
  match session with
  | some user =>
    ({ db with comments := db.comments ++ [(pet_id, ⟨user.username, comment_text⟩)] },
      none)
  | none => (db, some "You must be logged in to add a comment!")

/-- The store update of `mark_as_adopted` (line 95): set `adopted` to true
at `pets/<pet_id>` (a no-op on a key with no pet; the UI only offers the
button for existing pets). -/
def markAdopted (db : DB) (pet_id : Nat) : DB :=
  match db.pets.get? pet_id with
  | some p => { db with pets := db.pets.set pet_id { p with adopted := true } }
  | none => db

/-! ## Store failures and the error boundary (spec section 7)

Each external store call that can throw gets an explicit outcome.  A
handler is embedded as `Except String _`: `Except.error e` means the
exception `e` escaped the handler's body (it was not caught there), and
`Except.ok` carries the handler's state change and user-visible message.
In the source, `login` (lines 125-137), `mark_as_adopted` (lines 94-98)
and the `pets` push of `add_pet` (lines 176-180) wrap their store calls
in `try/except`; the store calls of `register` (lines 111, 115) are not
wrapped. -/

/-- Outcome of one external store call: it returns, or throws `e`. -/
inductive StoreOutcome where
  | ok : StoreOutcome
  | fail (e : String) : StoreOutcome
  deriving DecidableEq

/-- `register` with explicit outcomes for its two store calls, the
`get` on line 111 and the `set` on line 115.  Neither call sits inside a
`try/except`, so a thrown exception escapes the handler. -/
def registerOp (getOutcome setOutcome : StoreOutcome) (salt : Nat) (db : DB)
    (full_name username password : String) : Except String (DB × String) :=
  match getOutcome with
  | .fail e => .error e
  | .ok =>
    match usersLookup db.users username with
    | some _ => .ok (db, "Username already exists!")
    | none =>
      match setOutcome with
      | .fail e => .error e
      | .ok => .ok (registerInsert salt db full_name username password,
          "Registration successful! Please log in.")

/-- `login` with an explicit outcome for the `get` on line 126.  The whole
body sits inside `try/except Exception`, which converts any store failure
to the inline message `f"Error logging in: {e}"` (line 137). -/
def loginOp (getOutcome : StoreOutcome) (db : DB) (session : Option Identity)
    (username password : String) : Except String (Option Identity × String) :=
  match getOutcome with
  | .fail e => .ok (session, "Error logging in: " ++ e)
  | .ok => .ok (login db session username password)

/-- `mark_as_adopted` with an explicit outcome for the `update` on line 95,
caught on line 97 and converted to an inline message. -/
def mark_as_adopted (updateOutcome : StoreOutcome) (db : DB) (pet_id : Nat) :
    Except String (DB × String) :=
  match updateOutcome with
  | .fail e => .ok (db, "Failed to mark pet as adopted: " ++ e)
  | .ok => .ok (markAdopted db pet_id, "Pet marked as adopted!")

/-- `add_pet` with an explicit outcome for the `pets` push on line 177,
caught on line 179 and converted to an inline message.  Image-save
failures are already caught inside `save_image` (modelled by
`UploadedFile.saveOk`), so they never throw here. -/
def addPetOp (pushOutcome : StoreOutcome) (db : DB) (user : Identity)
    (name pet_type : String) (age : ℚ) (description location vaccinated : String)
    (images : List UploadedFile) : Except String (DB × String) :=
  match pushOutcome with
  | .fail e => .ok (db, "Failed to add pet: " ++ e)
  | .ok => .ok (add_pet db user name pet_type age description location vaccinated images,
      "Pet '" ++ name ++ "' added successfully!")

/-- `true` iff the handler returned instead of letting an exception
escape: the error was caught at the operation's boundary. -/
def caughtAtBoundary {α : Type} : Except String α → Bool
  | .ok _ => true
  | .error _ => false

/-- The session invariant of spec section 3: the session is anonymous, or
holds exactly one identity, and that identity is assembled from a stored
username and that record's `full_name` only — in particular it carries no
password field and no data derived from the plaintext password. -/
def sessionInv (db : DB) (s : Option Identity) : Prop :=
  s = none ∨ ∃ u r, usersLookup db.users u = some r ∧ s = some ⟨u, r.full_name⟩

/-! ## Auxiliary list lemmas -/

theorem length_filterMap_le_self {α β : Type} (f : α → Option β) (l : List α) :
    (l.filterMap f).length ≤ l.length := by
  induction l with
  | nil => simp
  | cons a t ih =>
    cases hf : f a <;> simp [List.filterMap_cons, hf] <;> omega

theorem length_enumFrom_self {α : Type} (n : Nat) (l : List α) :
    (List.enumFrom n l).length = l.length := by
  induction l generalizing n with
  | nil => rfl
  | cons a t ih => simp [List.enumFrom, ih]

theorem length_filter_le_self {α : Type} (q : α → Bool) (l : List α) :
    (l.filter q).length ≤ l.length := by
  induction l with
  | nil => simp
  | cons a t ih =>
    cases hq : q a <;> simp [List.filter_cons, hq] <;> omega

theorem length_filter_lt_of_dropped {α : Type} (q : α → Bool) (l : List α)
    (x : α) (hx : x ∈ l) (hq : q x = false) :
    (l.filter q).length < l.length := by
  induction l with
  | nil => cases hx
  | cons a t ih =>
    rcases List.mem_cons.mp hx with rfl | hxt
    · simp only [List.filter_cons, hq, List.length_cons]
      exact Nat.lt_succ_of_le (length_filter_le_self q t)
    · cases hqa : q a <;> simp only [List.filter_cons, hqa, List.length_cons]
      · exact Nat.lt_succ_of_lt (ih hxt)
      · exact Nat.succ_lt_succ (ih hxt)

theorem length_filter_enumFrom {α : Type} (q : α → Bool) (n : Nat) (l : List α) :
    ((List.enumFrom n l).filter (fun p => q p.2)).length = (l.filter q).length := by
  induction l generalizing n with
  | nil => rfl
  | cons a t ih =>
    cases hq : q a <;>
      simp [List.enumFrom, List.filter_cons, hq, ih]

theorem filterMap_save_eq (name : String) (l : List (Nat × UploadedFile)) :
    l.filterMap (fun p => save_image p.2 (petFilename name p.1)) =
      (l.filter (fun p => p.2.saveOk)).map
        (fun p => "uploads/" ++ petFilename name p.1) := by
  induction l with
  | nil => rfl
  | cons q t ih =>
    simp only [save_image] at ih ⊢
    cases hq : q.2.saveOk <;>
      simp [List.filterMap_cons, List.filter_cons, hq, ih]

/-! ## Concrete fixtures (used by witnesses) -/

/-- An empty store. -/
def db0 : DB := ⟨[], [], []⟩

/-- The record written by registering Jane (spec section 8 scenario). -/
def jrec : UserRecord := ⟨"Jane Doe", hash_password 2 "pw123"⟩

/-- A store holding exactly Jane's record. -/
def jdb : DB := ⟨[("jane", jrec)], [], []⟩

/-! ## The claims -/

/-- C1: a username/password pair accepted by `register` (the store did not
already contain the username) logs in afterwards: `login` with the same
credentials succeeds and sets the session to an authenticated identity
whose username is the registered username (and whose full name is the
registered full name, with the welcome message shown). -/
theorem register_then_login (salt : Nat) (db : DB) (session : Option Identity)
    (full_name username password : String)
    (h : usersLookup db.users username = none) :
    login (register salt db full_name username password).1 session username password =
      (some ⟨username, full_name⟩, "Welcome, " ++ full_name ++ "!") := by
  have hl : usersLookup
      ((registerInsert salt db full_name username password).users) username =
      some ⟨full_name, hash_password salt password⟩ :=
    usersLookup_append_self db.users username _ h
  simp only [register, h]
  unfold login
  rw [hl]
  simp [verify_hash_self]

/-- Witness for C1 at the spec section 8 scenario. -/
theorem register_then_login_witness :
    usersLookup db0.users "jane" = none ∧
    login (register 2 db0 "Jane Doe" "jane" "pw123").1 none "jane" "pw123" =
      (some ⟨"jane", "Jane Doe"⟩, "Welcome, " ++ "Jane Doe" ++ "!") :=
  ⟨by decide, register_then_login 2 db0 none "Jane Doe" "jane" "pw123" (by decide)⟩

/-- C2: a login with a nonexistent username and a login with an existing
username but a non-verifying password produce literally the same result:
the unified "Invalid credentials!" message, with the session left exactly
as it was (in particular, `Anonymous` stays `Anonymous`).  The two causes
are observationally indistinguishable to the caller. -/
theorem login_failure_uniform (db : DB) (session : Option Identity)
    (username password : String) :
    (usersLookup db.users username = none →
      login db session username password = (session, "Invalid credentials!")) ∧
    (∀ r, usersLookup db.users username = some r →
      verify_password password r.password = false →
      login db session username password = (session, "Invalid credentials!")) := by
  constructor
  · intro h
    simp [login, h]
  · intro r h hv
    simp [login, h, hv]

/-- Witness for C2: wrong password and unknown username against Jane's
store give identical results, leaving the session anonymous. -/
theorem login_failure_uniform_witness :
    login jdb none "bob" "pw123" = (none, "Invalid credentials!") ∧
    login jdb none "jane" "wrong" = (none, "Invalid credentials!") :=
  ⟨(login_failure_uniform jdb none "bob" "pw123").1 (by decide),
   (login_failure_uniform jdb none "jane" "wrong").2 jrec (by decide) (by decide)⟩

/-- C4: hashing a password and verifying the original plaintext succeeds;
verifying any other string against that hash fails; and the stored hash
never equals the plaintext. -/
theorem hash_verify_roundtrip (salt : Nat) (p q : String) :
    verify_password p (hash_password salt p) = true ∧
    (q ≠ p → verify_password q (hash_password salt p) = false) ∧
    hash_password salt p ≠ p :=
  ⟨verify_hash_self salt p, verify_hash_other salt p q, hash_ne_plain salt p⟩

/-- Witness for C4 at a concrete password and salt. -/
theorem hash_verify_roundtrip_witness :
    verify_password "pw123" (hash_password 2 "pw123") = true ∧
    verify_password "wrong" (hash_password 2 "pw123") = false ∧
    hash_password 2 "pw123" ≠ "pw123" :=
  ⟨(hash_verify_roundtrip 2 "pw123" "wrong").1,
   (hash_verify_roundtrip 2 "pw123" "wrong").2.1 (by decide),
   (hash_verify_roundtrip 2 "pw123" "wrong").2.2⟩

/-- C7: `logout` unconditionally clears the session identity, it is
idempotent, and calling it when already anonymous reports the ordinary
success message (no error). -/
theorem logout_idempotent (session : Option Identity) :
    (logout session).1 = none ∧
    logout ((logout session).1) = logout session ∧
    logout none = (none, "Logged out successfully!") :=
  ⟨rfl, rfl, rfl⟩

/-- C3: registering a username that already has a record always fails with
the conflict message and leaves the whole store unchanged; and no
operation that writes to the store (`register`, `mark_as_adopted`,
`add_pet`, `add_comment`) ever updates or deletes an existing user record
(`login` and `logout` perform no store write at all, as their result
types show). -/
theorem register_conflict_users_immutable :
    (∀ salt db full_name username password r,
      usersLookup db.users username = some r →
      register salt db full_name username password =
        (db, "Username already exists!")) ∧
    (∀ salt db full_name username password u' r',
      usersLookup db.users u' = some r' →
      usersLookup ((register salt db full_name username password).1).users u' =
        some r') ∧
    (∀ db pet_id, (markAdopted db pet_id).users = db.users) ∧
    (∀ db user name pet_type age description location vaccinated images,
      (add_pet db user name pet_type age description location vaccinated
        images).users = db.users) ∧
    (∀ db session pet_id text,
      ((add_comment db session pet_id text).1).users = db.users) := by
  refine ⟨?_, ?_, ?_, fun _ _ _ _ _ _ _ _ _ => rfl, ?_⟩
  · intro salt db fn u p r h
    simp [register, h]
  · intro salt db fn u p u' r' h
    cases hu : usersLookup db.users u with
    | some r => simpa [register, hu] using h
    | none =>
      simp only [register, hu]
      exact usersLookup_append_of_some db.users _ u' r' h
  · intro db pid
    cases hd : db.pets[pid]? <;>
      simp [markAdopted, List.get?_eq_getElem?, hd]
  · intro db s pid t
    cases s <;> rfl

/-- Witness for C3: re-registering `jane` conflicts and leaves the store
as it was, and a fresh registration of `bob` preserves Jane's record. -/
theorem register_conflict_users_immutable_witness :
    register 0 jdb "John" "jane" "other" = (jdb, "Username already exists!") ∧
    usersLookup ((register 0 jdb "Bob" "bob" "pw").1).users "jane" = some jrec :=
  ⟨register_conflict_users_immutable.1 0 jdb "John" "jane" "other" jrec (by decide),
   register_conflict_users_immutable.2.1 0 jdb "Bob" "bob" "pw" "jane" jrec (by decide)⟩

/-- C5: the session invariant — the session is anonymous or holds exactly
one identity built from a stored username and that record's full name
(never a raw password) — holds initially and is preserved by `register`,
`login` and `logout`. -/
theorem session_invariant :
    (∀ db, sessionInv db none) ∧
    (∀ salt db full_name username password session, sessionInv db session →
      sessionInv ((register salt db full_name username password).1) session) ∧
    (∀ db session username password, sessionInv db session →
      sessionInv db ((login db session username password).1)) ∧
    (∀ db session, sessionInv db ((logout session).1)) := by
  refine ⟨fun db => Or.inl rfl, ?_, ?_, fun db s => Or.inl rfl⟩
  · intro salt db fn u p s hs
    rcases hs with rfl | ⟨u', r', hl, rfl⟩
    · exact Or.inl rfl
    · refine Or.inr ⟨u', r', ?_, rfl⟩
      cases hu : usersLookup db.users u with
      | some r => simpa [register, hu] using hl
      | none =>
        simp only [register, hu]
        exact usersLookup_append_of_some db.users _ u' r' hl
  · intro db s u p hs
    unfold login
    cases hl : usersLookup db.users u with
    | none => simpa using hs
    | some r =>
      by_cases hv : verify_password p r.password
      · simp only [hv, if_true]
        exact Or.inr ⟨u, r, hl, rfl⟩
      · simpa [hv] using hs

/-- Witness for C5: the invariant after a registration starting from the
anonymous session, and after a successful login. -/
theorem session_invariant_witness :
    sessionInv ((register 2 db0 "Jane Doe" "jane" "pw123").1) none ∧
    sessionInv jdb ((login jdb none "jane" "pw123").1) :=
  ⟨session_invariant.2.1 2 db0 "Jane Doe" "jane" "pw123" none (Or.inl rfl),
   session_invariant.2.2.1 jdb none "jane" "pw123" (Or.inl rfl)⟩

/-- C6 (amended): store/storage failures raised inside `login`,
`mark_as_adopted` and `add_pet` (including image-save failures, which
`save_image` catches internally) are caught at the handler's boundary and
converted to an inline message — the handler always returns.  `register`,
however, does not wrap its store calls in `try/except`: a store failure
on its `get` escapes the handler uncaught. -/
theorem store_errors_boundary :
    (∀ g db session username password,
      caughtAtBoundary (loginOp g db session username password) = true) ∧
    (∀ o db pet_id, caughtAtBoundary (mark_as_adopted o db pet_id) = true) ∧
    (∀ o db user name pet_type age description location vaccinated images,
      caughtAtBoundary (addPetOp o db user name pet_type age description
        location vaccinated images) = true) ∧
    (∀ e so salt db full_name username password,
      registerOp (StoreOutcome.fail e) so salt db full_name username password =
        Except.error e) := by
  refine ⟨?_, ?_, ?_, fun _ _ _ _ _ _ _ => rfl⟩
  · intro g db s u p
    cases g <;> rfl
  · intro o db pid
    cases o <;> rfl
  · intro o db user n pt age d loc v imgs
    cases o <;> rfl

/-- Counterexample for C6 as stated: a store failure during `register`'s
existence check is not caught at the boundary — it escapes the handler. -/
theorem store_error_escapes_register :
    registerOp (StoreOutcome.fail "store unavailable") StoreOutcome.ok 0 db0
      "Jane Doe" "jane" "pw123" = Except.error "store unavailable" := rfl

/-- C8: when an image save fails partway through the loop, nothing is
rolled back — the pet record is still appended to the store, its
`image_paths` are exactly the paths of the successfully saved images (in
upload order, each named after its original position), and the failed
image is omitted from the record, which therefore has fewer paths than
files were processed. -/
theorem add_pet_partial_failure (db : DB) (user : Identity)
    (name pet_type : String) (age : ℚ)
    (description location vaccinated : String) (images : List UploadedFile)
    (h : ∃ f ∈ images.take 3, f.saveOk = false) :
    (add_pet db user name pet_type age description location vaccinated
        images).pets =
      db.pets ++ [petRecord user name pet_type age description location
        vaccinated images] ∧
    (petRecord user name pet_type age description location vaccinated
        images).image_paths =
      ((images.take 3).enum.filter (fun p => p.2.saveOk)).map
        (fun p => "uploads/" ++ petFilename name p.1) ∧
    (petRecord user name pet_type age description location vaccinated
        images).image_paths.length < (images.take 3).length := by
  obtain ⟨f, hf, hfo⟩ := h
  have heq : (petRecord user name pet_type age description location vaccinated
      images).image_paths =
      ((images.take 3).enum.filter (fun p => p.2.saveOk)).map
        (fun p => "uploads/" ++ petFilename name p.1) :=
    filterMap_save_eq name ((images.take 3).enum)
  refine ⟨rfl, heq, ?_⟩
  rw [heq, List.length_map]
  have h2 : (((images.take 3).enum).filter (fun p => p.2.saveOk)).length =
      ((images.take 3).filter (fun f => f.saveOk)).length :=
    length_filter_enumFrom (fun f => f.saveOk) 0 (images.take 3)
  rw [h2]
  exact length_filter_lt_of_dropped _ _ f hf hfo

/-- Witness for C8: three uploads of which the middle save fails; the
record keeps exactly the first and third paths. -/
theorem add_pet_partial_failure_witness :
    (add_pet jdb ⟨"jane", "Jane Doe"⟩ "Rex" "Dog" 2 "friendly" "Springfield"
        "Yes" [⟨true⟩, ⟨false⟩, ⟨true⟩]).pets =
      jdb.pets ++ [petRecord ⟨"jane", "Jane Doe"⟩ "Rex" "Dog" 2 "friendly"
        "Springfield" "Yes" [⟨true⟩, ⟨false⟩, ⟨true⟩]] ∧
    (petRecord ⟨"jane", "Jane Doe"⟩ "Rex" "Dog" 2 "friendly" "Springfield"
        "Yes" [⟨true⟩, ⟨false⟩, ⟨true⟩]).image_paths =
      List.map (fun p => "uploads/" ++ petFilename "Rex" p.1)
        (List.filter (fun p => p.2.saveOk)
          ((([⟨true⟩, ⟨false⟩, ⟨true⟩] : List UploadedFile).take 3).enum)) ∧
    (petRecord ⟨"jane", "Jane Doe"⟩ "Rex" "Dog" 2 "friendly" "Springfield"
        "Yes" [⟨true⟩, ⟨false⟩, ⟨true⟩]).image_paths.length <
      (([⟨true⟩, ⟨false⟩, ⟨true⟩] : List UploadedFile).take 3).length :=
  add_pet_partial_failure jdb ⟨"jane", "Jane Doe"⟩ "Rex" "Dog" 2 "friendly"
    "Springfield" "Yes" [⟨true⟩, ⟨false⟩, ⟨true⟩] (by decide)

/-- C9: `add_pet` saves at most the first three uploaded files: the whole
operation gives the same result as with the upload list truncated to
three, and the written record holds at most three image paths. -/
theorem add_pet_image_limit (db : DB) (user : Identity) (name pet_type : String)
    (age : ℚ) (description location vaccinated : String)
    (images : List UploadedFile) :
    add_pet db user name pet_type age description location vaccinated images =
      add_pet db user name pet_type age description location vaccinated
        (images.take 3) ∧
    (petRecord user name pet_type age description location vaccinated
        images).image_paths.length ≤ 3 := by
  constructor
  · unfold add_pet petRecord petImagePaths
    simp [List.take_take]
  · have h1 := length_filterMap_le_self
      (fun p => save_image p.2 (petFilename name p.1)) ((images.take 3).enum)
    have h2 : ((images.take 3).enum).length = (images.take 3).length :=
      length_enumFrom_self 0 (images.take 3)
    have h3 : (images.take 3).length ≤ 3 := by
      simp [List.length_take]
    calc (petRecord user name pet_type age description location vaccinated
          images).image_paths.length
        ≤ ((images.take 3).enum).length := h1
      _ = (images.take 3).length := h2
      _ ≤ 3 := h3

/-- C10: `add_comment` writes iff a user is logged in: anonymous sessions
get an error and no write; a logged-in session appends a comment under
the pet whose `commenter` is the logged-in username, with no error. -/
theorem add_comment_requires_login (db : DB) (session : Option Identity)
    (pet_id : Nat) (text : String) :
    (session = none → add_comment db session pet_id text =
      (db, some "You must be logged in to add a comment!")) ∧
    (∀ u, session = some u → add_comment db session pet_id text =
      ({ db with comments := db.comments ++ [(pet_id, ⟨u.username, text⟩)] },
        none)) := by
  constructor
  · rintro rfl
    rfl
  · rintro u rfl
    rfl

/-- Witness for C10: an anonymous comment is rejected without a write; a
logged-in comment is stored under Jane's username. -/
theorem add_comment_requires_login_witness :
    add_comment jdb none 0 "cute" =
      (jdb, some "You must be logged in to add a comment!") ∧
    add_comment jdb (some ⟨"jane", "Jane Doe"⟩) 0 "cute" =
      ({ jdb with comments := jdb.comments ++ [(0, ⟨"jane", "cute"⟩)] }, none) :=
  ⟨(add_comment_requires_login jdb none 0 "cute").1 rfl,
   (add_comment_requires_login jdb (some ⟨"jane", "Jane Doe"⟩) 0 "cute").2
     ⟨"jane", "Jane Doe"⟩ rfl⟩

end PetApp
